import Mathlib

/-!
Shallow embedding of the wallet's internal Ethereum provider service and the
WalletConnect bridge (services/internal-ethereum-provider and
services/walletconnect): per-origin active-network tracking, JSON-RPC method
routing, transaction-request normalization, the promise-based signing
approval, and WalletConnect v2 session-proposal acknowledgment.
-/

namespace Wallet

/-- Modelled from the spec: the trusted internal origin constant
(`TALLY_INTERNAL_ORIGIN` from `./constants`, which is not under src/); a
distinguished string, checked by exact match before any privileged field is
honored. -/
def TALLY_INTERNAL_ORIGIN : String := "tally-internal"

/-- An EVM network as used by the internal provider: a display name plus a
numeric chain id.  The source carries chain ids as decimal strings and always
compares them after numeric (hex) conversion, so chain ids are modelled as
naturals. -/
structure EVMNetwork where
  name : String
  chainID : Nat
deriving DecidableEq, Repr

/-- Modelled from the spec: the hard-coded default network (`ETHEREUM` from
`../../constants`, which is not under src/). -/
def ETHEREUM : EVMNetwork := { name := "Ethereum", chainID := 1 }

/-- Modelled from the spec: `toHexChainID` (`../../networks`, not under src/)
renders a chain id as a 0x-prefixed hexadecimal string. -/
def toHexChainID (chainID : Nat) : String :=
  "0x" ++ (Nat.toDigits 16 chainID).asString

/-- The per-origin active-network table of the internal provider database,
modelled as an association list from origin to its selected network. -/
abbrev ActiveNetworkTable := List (String × EVMNetwork)

/-- Row lookup for an origin (`getActiveNetworkForOrigin` of the internal
provider database): the stored network selection, if any. -/
def getActiveNetworkForOrigin (db : ActiveNetworkTable) (origin : String) :
    Option EVMNetwork :=
  (db.find? (fun p => p.1 == origin)).map (fun p => p.2)

/-- Modelled from the spec: `setActiveChainIdForOrigin` of the internal
provider database (`./db`, not under src/): an idempotent upsert keyed by
origin, overwriting any prior selection for that origin only. -/
def setActiveChainIdForOrigin (db : ActiveNetworkTable) (origin : String)
    (network : EVMNetwork) : ActiveNetworkTable :=
  (origin, network) :: db.filter (fun p => p.1 != origin)

/-- Modelled from the spec: `getOrCreateDB` (`./db`, not under src/) populates
a fresh database with the internal origin mapped to the hard-coded default
network, which is what makes the internal row the process-wide fallback. -/
def initialActiveNetworkTable : ActiveNetworkTable :=
  [(TALLY_INTERNAL_ORIGIN, ETHEREUM)]

/-- The internal origin's stored selection (`getInternalActiveChain`).  The
source casts away the possible absence of the row; absence is kept as `none`
here and surfaces as a crash at the use site. -/
def getInternalActiveChain (db : ActiveNetworkTable) : Option EVMNetwork :=
  getActiveNetworkForOrigin db TALLY_INTERNAL_ORIGIN

/-- Resolution of an origin's active network (`getActiveOrDefaultNetwork`):
the origin's stored selection when present, else the internal origin's
stored selection. -/
def getActiveOrDefaultNetwork (db : ActiveNetworkTable) (origin : String) :
    Option EVMNetwork :=
  match getActiveNetworkForOrigin db origin with
  | some activeNetwork => some activeNetwork
  | none => getInternalActiveChain db

/-- The wire-shaped transaction request arriving over eth_sendTransaction and
eth_signTransaction (`JsonRpcTransactionRequest`): ethers-style fields with
`gas` in place of `gasLimit`, a possible aliased `input` field, and a
JSON-serialized annotation string.  A field absent from the wire JSON is
`none`. -/
structure JsonRpcTransactionRequest where
  «from» : Option String := none
  «to» : Option String := none
  value : Option String := none
  data : Option String := none
  gas : Option String := none
  input : Option String := none
  nonce : Option String := none
  annotation : Option String := none
deriving DecidableEq, Repr

/-- The ethers-shaped request handed to the normalizer: the object literal
built inside `signTransaction`, whose spread semantics make `data` fall back
to the aliased `input` field (an explicit `data` wins) and always take
`gasLimit` from the wire `gas` field. -/
structure EthersTransactionRequest where
  «from» : Option String
  «to» : Option String
  value : Option String
  data : Option String
  gasLimit : Option String
  nonce : Option String
deriving DecidableEq, Repr

/-- The object literal `{ data: input, ...transactionRequest, gasLimit: gas }`
from `signTransaction`, with JavaScript spread overwrite semantics. -/
def ethersRequestOfJsonRpc (req : JsonRpcTransactionRequest) :
    EthersTransactionRequest :=
  { «from» := req.«from»,
    «to» := req.«to»,
    value := req.value,
    data := match req.data with
      | some d => some d
      | none => req.input,
    gasLimit := req.gas,
    nonce := req.nonce }

/-- A decoded transaction annotation; the development only tracks whether an
annotation is attached, so it is represented by its serialized form. -/
abbrev TransactionAnnotation := String

/-- Modelled from the spec: `decodeJSON` (`../../lib/utils`, not under src/)
deserializes the annotation string coming from the trusted internal caller. -/
def decodeJSON (s : String) : TransactionAnnotation := s

/-- The normalizer's output shape: the canonical transaction request fields
(still with an optional sender, before the sender check). -/
structure ConvertedTransactionRequest where
  «from» : Option String
  «to» : Option String
  value : Option String
  data : Option String
  gasLimit : Option String
  nonce : Option String
deriving DecidableEq, Repr

/-- Modelled from the spec: `transactionRequestFromEthersTransactionRequest`
(`../chain/utils`, not under src/), the pure transaction normalizer: carries
the ethers fields onto the canonical request, maps `gasLimit` to the
canonical gas limit, and strips any caller-supplied nonce. -/
def transactionRequestFromEthersTransactionRequest
    (e : EthersTransactionRequest) : ConvertedTransactionRequest :=
  { «from» := e.«from»,
    «to» := e.«to»,
    value := e.value,
    data := e.data,
    gasLimit := e.gasLimit,
    nonce := none }

/-- The canonical payload emitted with a `transactionSignatureRequest` event:
the converted request without its sender option, plus the mandatory sender,
the resolved network, and the annotation (internal callers only). -/
structure SignTransactionPayload where
  «from» : String
  «to» : Option String
  value : Option String
  data : Option String
  gasLimit : Option String
  nonce : Option String
  network : EVMNetwork
  annotation : Option TransactionAnnotation
deriving DecidableEq, Repr

/-- The failure classes routing can produce: the two EIP-1193 errors thrown
by `routeSafeRPCRequest` itself, the plain missing-sender `Error` thrown by
`signTransaction`, and the crash of reading a field of an absent internal
database row. -/
inductive RouteError where
  | unsupportedMethod
  | chainDisconnected
  | missingFromAddress
  | internalCrash
deriving DecidableEq, Repr

/-- The `signTransaction` method (lines 308-349): gates the annotation on the
caller's origin being exactly the internal origin, normalizes the wire
request, rejects requests without a sender, resolves the origin's network,
and produces the canonical payload handed to the signature-request event. -/
def signTransaction (db : ActiveNetworkTable)
    (transactionRequest : JsonRpcTransactionRequest) (origin : String) :
    Except RouteError SignTransactionPayload :=
  let ann : Option TransactionAnnotation :=
    if origin = TALLY_INTERNAL_ORIGIN then
      Option.map decodeJSON ( JsonRpcTransactionRequest.annotation transactionRequest)
    else none
  let converted := transactionRequestFromEthersTransactionRequest
    (ethersRequestOfJsonRpc transactionRequest)
  match converted.«from» with
  | none => Except.error RouteError.missingFromAddress
  | some sender =>
    match getActiveOrDefaultNetwork db origin with
    | none => Except.error RouteError.internalCrash
    | some activeNetwork =>
      Except.ok
        { «from» := sender,
          «to» := converted.«to»,
          value := converted.value,
          data := converted.data,
          gasLimit := converted.gasLimit,
          nonce := converted.nonce,
          network := activeNetwork,
          annotation := ann }

/-- The broker state visible to routing: the per-origin network table, the
preference collaborator's selected account (absent when none is selected),
the chain service's currently active networks, and the networks an
activation attempt can still succeed for. -/
structure WalletState where
  db : ActiveNetworkTable
  selectedAccount : Option String
  chainNetworks : List EVMNetwork
  activatable : List EVMNetwork
deriving DecidableEq, Repr

/-- Modelled from the spec: `ChainService.activateNetworkOrThrow` (a gateway
capability consumed by the broker, outside src/): activation succeeds exactly
when the requested chain id is among the supported-but-inactive networks. -/
def activateNetworkOrThrow (s : WalletState) (chainID : Nat) :
    Option EVMNetwork :=
  s.activatable.find? (fun n => n.chainID == chainID)

/-- Lookup of a requested chain id among the currently active networks, with
a fallback activation attempt (`getActiveNetworkByChainId`, lines 359-381);
an activation failure is caught and becomes `none`. -/
def getActiveNetworkByChainId (s : WalletState) (chainID : Nat) :
    Option EVMNetwork :=
  match s.chainNetworks.find?
      (fun n => toHexChainID n.chainID == toHexChainID chainID) with
  | some activeNetwork => some activeNetwork
  | none => activateNetworkOrThrow s chainID

/-- The inbound JSON-RPC calls embedded by this development, mirroring the
cases of the `routeSafeRPCRequest` switch that the claims concern; the big
read-only list collapses to `passThrough` and the final catch-all to
`unsupported`. -/
inductive RPCCall where
  | eth_chainId
  | eth_accounts
  | eth_sendTransaction (req : JsonRpcTransactionRequest)
  | eth_signTransaction (req : JsonRpcTransactionRequest)
  | wallet_addEthereumChain (chainId : Nat)
  | wallet_switchEthereumChain (chainId : Nat)
  | passThrough (method : String)
  | unsupported (method : String)
deriving DecidableEq, Repr

/-- The observable outcome of a successfully routed call: a string result, an
account list, the null success marker, the canonical payload opened for
signing approval, or a verbatim forward to the chain gateway. -/
inductive RouteValue where
  | str (v : String)
  | addressList (addresses : List (Option String))
  | null
  | transactionSignatureRequest (payload : SignTransactionPayload)
  | gatewaySend (method : String) (network : EVMNetwork)
deriving DecidableEq, Repr

/-- The shared body of the `wallet_addEthereumChain` and
`wallet_switchEthereumChain` cases (lines 253-264): resolve the chain id; on
success persist the origin's selection and return null, else throw
chain-disconnected. -/
def routeSwitchEthereumChain (s : WalletState) (origin : String)
    (chainId : Nat) : WalletState × Except RouteError RouteValue :=
  match getActiveNetworkByChainId s chainId with
  | some supportedNetwork =>
    ({ s with db := setActiveChainIdForOrigin s.db origin supportedNetwork },
      Except.ok RouteValue.null)
  | none => (s, Except.error RouteError.chainDisconnected)

/-- The `routeSafeRPCRequest` dispatch over the embedded cases.  The
eth_sendTransaction case discards any caller-supplied nonce before signing;
the eth_signTransaction case passes the wire request through unchanged. -/
def routeSafeRPCRequest (s : WalletState) (call : RPCCall) (origin : String) :
    WalletState × Except RouteError RouteValue :=
  match call with
  | RPCCall.eth_chainId =>
    match getActiveOrDefaultNetwork s.db origin with
    | some n => (s, Except.ok (RouteValue.str (toHexChainID n.chainID)))
    | none => (s, Except.error RouteError.internalCrash)
  | RPCCall.eth_accounts =>
    (s, Except.ok (RouteValue.addressList [s.selectedAccount]))
  | RPCCall.eth_sendTransaction req =>
    (s, (signTransaction s.db { req with nonce := none } origin).map
      RouteValue.transactionSignatureRequest)
  | RPCCall.eth_signTransaction req =>
    (s, (signTransaction s.db req origin).map
      RouteValue.transactionSignatureRequest)
  | RPCCall.wallet_addEthereumChain chainId =>
    routeSwitchEthereumChain s origin chainId
  | RPCCall.wallet_switchEthereumChain chainId =>
    routeSwitchEthereumChain s origin chainId
  | RPCCall.passThrough method =>
    match getActiveOrDefaultNetwork s.db origin with
    | some n => (s, Except.ok (RouteValue.gatewaySend method n))
    | none => (s, Except.error RouteError.internalCrash)
  | RPCCall.unsupported _ => (s, Except.error RouteError.unsupportedMethod)

/-- A promise's settlement state, as observed by the awaiting caller. -/
inductive PromiseState (α : Type) where
  | pending
  | fulfilled (v : α)
  | rejected
deriving DecidableEq, Repr

/-- An invocation of one of the two continuations handed to the UI. -/
inductive SettleAction (α : Type) where
  | resolve (v : α)
  | reject
deriving DecidableEq, Repr

/-- ECMAScript promise settlement, the semantics of the `resolve` and
`reject` continuations produced by the `new Promise` constructions in
`signTransaction` and `signTypedData` (lines 337-348 and 383-391): settling a
pending promise fixes its result; settling an already-settled promise is a
no-op, never a crash. -/
def settle {α : Type} : PromiseState α → SettleAction α → PromiseState α
  | PromiseState.pending, SettleAction.resolve v => PromiseState.fulfilled v
  | PromiseState.pending, SettleAction.reject => PromiseState.rejected
  | st, _ => st

/-- The signed transaction a resolved signature request yields; routing reads
its hash and its r, s, v components. -/
structure SignedTransaction where
  hash : String
  r : String
  s : String
  v : String
deriving DecidableEq, Repr

/-- An in-flight approval: the payload emitted to the trusted UI together
with the state of the promise the caller awaits. -/
structure PendingApproval (P R : Type) where
  payload : P
  state : PromiseState R
deriving DecidableEq, Repr

/-- Opening a pending approval: the promise constructed by `signTransaction`
or `signTypedData`, paired with the payload emitted on the request event. -/
def openApproval {P R : Type} (payload : P) : PendingApproval P R :=
  { payload := payload, state := PromiseState.pending }

/-- Invoking the resolver or rejecter of a pending approval. -/
def applySettle {P R : Type} (a : PendingApproval P R) (act : SettleAction R) :
    PendingApproval P R :=
  { a with state := settle a.state act }

/-- A WalletConnect required namespace: candidate chains plus the requested
methods and events. -/
structure RequiredNamespace where
  chains : List String
  methods : List String
  events : List String
deriving DecidableEq, Repr

/-- The parameters of a v2 session proposal: its required namespaces keyed by
namespace name, and the relay list. -/
structure SessionProposalParams where
  requiredNamespaces : List (String × RequiredNamespace)
  relays : List String
deriving DecidableEq, Repr

/-- A v2 session proposal: its identifier and parameters. -/
structure SessionProposal where
  id : Nat
  params : SessionProposalParams
deriving DecidableEq, Repr

/-- The terminal call the acknowledgment flow issues for a proposal: either a
sign-client approve (with the namespaces it grants) or a reject. -/
inductive ProposalAction where
  | approve (id : Nat) (relayProtocol : String) (accounts : List String)
      (methods : List String) (events : List String)
  | reject (id : Nat)
deriving DecidableEq, Repr

/-- Key lookup in the required-namespaces record. -/
def lookupRequiredNamespace (l : List (String × RequiredNamespace))
    (key : String) : Option RequiredNamespace :=
  (l.find? (fun p => p.1 == key)).map (fun p => p.2)

/-- The v2 proposal acknowledgment flow (`acknowledgeProposal`, lines
571-616): reject outright when the `eip155` namespace is missing; otherwise
build the per-chain account list and approve over the first relay when a
sign client is available and a relay exists, else reject
(`rejectProposal`, lines 618-623). -/
def acknowledgeProposal (hasSignClient : Bool) (proposal : SessionProposal)
    (selectedAccounts : List String) : ProposalAction :=
  match lookupRequiredNamespace proposal.params.requiredNamespaces "eip155" with
  | none => ProposalAction.reject proposal.id
  | some ethNamespace =>
    let accounts := ethNamespace.chains.foldl
      (fun acc chain => acc ++ selectedAccounts.map (fun a => chain ++ ":" ++ a))
      []
    match hasSignClient, proposal.params.relays with
    | true, relayProtocol :: _ =>
      ProposalAction.approve proposal.id relayProtocol accounts
        ethNamespace.methods ethNamespace.events
    | _, _ => ProposalAction.reject proposal.id

/-- The serialized form of an EIP-1193 structured error. -/
structure EIP1193ErrorJSON where
  code : Int
  message : String
deriving DecidableEq, Repr

/-- Modelled from the spec: the EIP-1193 user-rejected-request error constant
(`EIP1193_ERROR_CODES.userRejectedRequest` of provider-bridge-shared, not
under src/), as serialized by `toJSON`. -/
def userRejectedRequestJSON : EIP1193ErrorJSON :=
  { code := 4001, message := "The user rejected the request." }

/-- The result field of a response posted back on the internal provider
port. -/
inductive PortResult where
  | success (v : RouteValue)
  | errorJSON (e : EIP1193ErrorJSON)
deriving DecidableEq, Repr

/-- A response posted back on the internal provider port, echoing the
request identifier. -/
structure PortResponse where
  id : Nat
  result : PortResult
deriving DecidableEq, Repr

/-- The internal provider port message handler installed by the service
constructor (lines 104-128): routes the request with the trusted internal
origin and posts the result, or, on any failure whatsoever, posts the
user-rejected-request error. -/
def handleInternalPortMessage (s : WalletState) (eventId : Nat)
    (call : RPCCall) : WalletState × PortResponse :=
  match routeSafeRPCRequest s call TALLY_INTERNAL_ORIGIN with
  | (s', Except.ok v) =>
    (s', { id := eventId, result := PortResult.success v })
  | (s', Except.error _) =>
    (s', { id := eventId, result := PortResult.errorJSON userRejectedRequestJSON })

/-- Frame property of list filtering used by the upsert: filtering out the
rows of one key leaves lookups of any other key unchanged. -/
theorem find?_filter_ne (db : ActiveNetworkTable) (o o' : String) (h : o ≠ o') :
    (db.filter (fun p => p.1 != o)).find? (fun p => p.1 == o') =
      db.find? (fun p => p.1 == o') := by
  induction db with
  | nil => rfl
  | cons hd tl ih =>
    by_cases h1 : hd.1 = o
    · have h2 : (hd.1 == o') = false := by
        simp [h1]
        exact fun heq => h (h1 ▸ heq)
      have h3 : (hd.1 != o) = false := by simp [bne, h1]
      simp [List.filter_cons, h3, List.find?_cons, h2, ih]
    · have h3 : (hd.1 != o) = true := by simp [bne, h1]
      by_cases h2 : hd.1 = o'
      · have h5 : ¬o' = o := h2 ▸ h1
        simp [List.filter_cons, h3, List.find?_cons, h2, h5]
      · have h4 : (hd.1 == o') = false := by simp [h2]
        simp [List.filter_cons, h3, List.find?_cons, h4, ih]

/-- The upsert writes only its own origin's row: lookups for any other
origin are unchanged. -/
theorem getActiveNetworkForOrigin_set_ne (db : ActiveNetworkTable)
    (o o' : String) (n : EVMNetwork) (h : o ≠ o') :
    getActiveNetworkForOrigin (setActiveChainIdForOrigin db o n) o' =
      getActiveNetworkForOrigin db o' := by
  unfold getActiveNetworkForOrigin setActiveChainIdForOrigin
  have h0 : (((o, n).1 == o') = false) := by
    simp
    exact h
  rw [List.find?_cons, h0, find?_filter_ne db o o' h]

/-- C2: for a signing-required method the caller's awaited result is settled
by exactly one of resolve/reject, and invoking the resolver or rejecter a
second time on the same pending approval has no additional effect: the
observed state is unchanged and the operation is total, never a crash. -/
theorem pending_approval_settled_exactly_once
    (payload : SignTransactionPayload)
    (a1 a2 : SettleAction SignedTransaction) :
    applySettle (applySettle (openApproval payload) a1) a2 =
      applySettle (openApproval payload) a1 ∧
    (applySettle (openApproval payload) a1).state ≠ PromiseState.pending ∧
    (∀ v, (applySettle (openApproval payload) a1).state =
        PromiseState.fulfilled v ↔ a1 = SettleAction.resolve v) ∧
    ((applySettle (openApproval payload) a1).state = PromiseState.rejected ↔
      a1 = SettleAction.reject) := by
  cases a1 <;> cases a2 <;> simp [applySettle, openApproval, settle]

/-- Concrete payload used by witness instantiations. -/
def examplePayload : SignTransactionPayload :=
  { «from» := "0xf00", «to» := none, value := none, data := none,
    gasLimit := none, nonce := none, network := ETHEREUM, annotation := none }

/-- Concrete signed transaction used by witness instantiations. -/
def exampleSigned : SignedTransaction :=
  { hash := "0xhash", r := "0xr", s := "0xs", v := "0x1" }

/-- Witness for C2 at a concrete approval: resolve then reject leaves the
first settlement in place. -/
theorem pending_approval_settled_exactly_once_witness :
    applySettle
        (applySettle (openApproval examplePayload)
          (SettleAction.resolve exampleSigned))
        SettleAction.reject =
      applySettle (openApproval examplePayload)
        (SettleAction.resolve exampleSigned) ∧
    (applySettle (openApproval examplePayload)
        (SettleAction.resolve exampleSigned)).state ≠ PromiseState.pending :=
  ⟨(pending_approval_settled_exactly_once examplePayload
      (SettleAction.resolve exampleSigned) SettleAction.reject).1,
    (pending_approval_settled_exactly_once examplePayload
      (SettleAction.resolve exampleSigned) SettleAction.reject).2.1⟩

/-- C4 (amended): eth_accounts bypasses the chain gateway and always returns
the one-element array holding the preference collaborator's selected-account
address, never failing; when no account is selected the element is the
absent address, so the result is never the empty array. -/
theorem eth_accounts_singleton (s : WalletState) (origin : String) :
    routeSafeRPCRequest s RPCCall.eth_accounts origin =
      (s, Except.ok (RouteValue.addressList [s.selectedAccount])) ∧
    RouteValue.addressList [s.selectedAccount] ≠ RouteValue.addressList [] := by
  refine ⟨rfl, ?_⟩
  simp

/-- C4 counterexample: with no account selected, eth_accounts returns the
one-element array holding the absent address, not the empty array the claim
requires. -/
theorem eth_accounts_counterexample :
    (routeSafeRPCRequest
        { db := initialActiveNetworkTable, selectedAccount := none,
          chainNetworks := [], activatable := [] }
        RPCCall.eth_accounts "https://dapp.example").2 =
      Except.ok (RouteValue.addressList [none]) ∧
    RouteValue.addressList [none] ≠ RouteValue.addressList [] := by
  refine ⟨rfl, ?_⟩
  simp

/-- Witness for C4 (amended) at a concrete state with no selected account. -/
theorem eth_accounts_singleton_witness :
    routeSafeRPCRequest
        { db := initialActiveNetworkTable, selectedAccount := none,
          chainNetworks := [], activatable := [] }
        RPCCall.eth_accounts "https://dapp.example" =
      ({ db := initialActiveNetworkTable, selectedAccount := none,
          chainNetworks := [], activatable := [] },
        Except.ok (RouteValue.addressList [none])) :=
  (eth_accounts_singleton
    { db := initialActiveNetworkTable, selectedAccount := none,
      chainNetworks := [], activatable := [] } "https://dapp.example").1

/-- C9: a v2 session proposal whose required namespaces omit the eip155
namespace transitions straight to the reject path and never yields an
approve/acknowledge call. -/
theorem proposal_without_eip155_rejected
    (hasSignClient : Bool) (proposal : SessionProposal)
    (selectedAccounts : List String)
    (h : lookupRequiredNamespace proposal.params.requiredNamespaces "eip155" =
      none) :
    acknowledgeProposal hasSignClient proposal selectedAccounts =
      ProposalAction.reject proposal.id ∧
    ∀ i rp accounts ms es,
      acknowledgeProposal hasSignClient proposal selectedAccounts ≠
        ProposalAction.approve i rp accounts ms es := by
  have hmain : acknowledgeProposal hasSignClient proposal selectedAccounts =
      ProposalAction.reject proposal.id := by
    unfold acknowledgeProposal
    rw [h]
  refine ⟨hmain, fun i rp accounts ms es hc => ?_⟩
  rw [hmain] at hc
  exact ProposalAction.noConfusion hc

/-- Witness for C9 at a concrete proposal whose only required namespace is
cosmos. -/
theorem proposal_without_eip155_rejected_witness :
    acknowledgeProposal true
        { id := 42,
          params :=
            { requiredNamespaces :=
                [("cosmos",
                  { chains := ["cosmos:cosmoshub-4"], methods := [],
                    events := [] })],
              relays := ["irn"] } }
        ["0xabc"] =
      ProposalAction.reject 42 :=
  (proposal_without_eip155_rejected true
    { id := 42,
      params :=
        { requiredNamespaces :=
            [("cosmos",
              { chains := ["cosmos:cosmoshub-4"], methods := [],
                events := [] })],
          relays := ["irn"] } }
    ["0xabc"] rfl).1

/-- C10: every routing failure on the trusted internal provider port,
whatever its error class, is posted back as the single EIP-1193
user-rejected-request error, so two failing requests produce
indistinguishable responses. -/
theorem internal_port_failure_collapse
    (s1 s2 : WalletState) (eventId : Nat) (c1 c2 : RPCCall)
    (e1 e2 : RouteError)
    (h1 : (routeSafeRPCRequest s1 c1 TALLY_INTERNAL_ORIGIN).2 =
      Except.error e1)
    (h2 : (routeSafeRPCRequest s2 c2 TALLY_INTERNAL_ORIGIN).2 =
      Except.error e2) :
    (handleInternalPortMessage s1 eventId c1).2 =
      { id := eventId, result := PortResult.errorJSON userRejectedRequestJSON } ∧
    (handleInternalPortMessage s1 eventId c1).2 =
      (handleInternalPortMessage s2 eventId c2).2 := by
  have k : ∀ (s : WalletState) (c : RPCCall) (e : RouteError),
      (routeSafeRPCRequest s c TALLY_INTERNAL_ORIGIN).2 = Except.error e →
      (handleInternalPortMessage s eventId c).2 =
        { id := eventId,
          result := PortResult.errorJSON userRejectedRequestJSON } := by
    intro s c e he
    unfold handleInternalPortMessage
    rcases hr : routeSafeRPCRequest s c TALLY_INTERNAL_ORIGIN with ⟨s', r⟩
    rw [hr] at he
    simp only at he
    subst he
    rfl
  refine ⟨k s1 c1 e1 h1, ?_⟩
  rw [k s1 c1 e1 h1, k s2 c2 e2 h2]

/-- Concrete broker state used by witness instantiations. -/
def exampleInternalState : WalletState :=
  { db := initialActiveNetworkTable, selectedAccount := none,
    chainNetworks := [ETHEREUM], activatable := [] }

/-- Witness for C10: an unsupported method and an unsupported chain switch
collapse to the same user-rejected response. -/
theorem internal_port_failure_collapse_witness :
    (handleInternalPortMessage exampleInternalState 7
        (RPCCall.unsupported "eth_getWork")).2 =
      { id := 7, result := PortResult.errorJSON userRejectedRequestJSON } ∧
    (handleInternalPortMessage exampleInternalState 7
        (RPCCall.unsupported "eth_getWork")).2 =
      (handleInternalPortMessage exampleInternalState 7
        (RPCCall.wallet_switchEthereumChain 999)).2 :=
  internal_port_failure_collapse exampleInternalState exampleInternalState 7
    (RPCCall.unsupported "eth_getWork") (RPCCall.wallet_switchEthereumChain 999)
    RouteError.unsupportedMethod RouteError.chainDisconnected rfl rfl

/-- Characterization of a successful `signTransaction`: the emitted canonical
payload has no nonce, takes its gas limit from the wire `gas` field, prefers
an explicit `data` field over the aliased `input` field, and carries an
annotation exactly when the caller is the internal origin. -/
theorem signTransaction_ok_spec (db : ActiveNetworkTable)
    (req : JsonRpcTransactionRequest) (origin : String)
    (p : SignTransactionPayload)
    (hp : signTransaction db req origin = Except.ok p) :
    SignTransactionPayload.nonce p = none ∧
    SignTransactionPayload.gasLimit p = JsonRpcTransactionRequest.gas req ∧
    SignTransactionPayload.data p =
      (match JsonRpcTransactionRequest.data req with
        | some d => some d
        | none => JsonRpcTransactionRequest.input req) ∧
    SignTransactionPayload.annotation p =
      (if origin = TALLY_INTERNAL_ORIGIN then
        Option.map decodeJSON ( JsonRpcTransactionRequest.annotation req)
      else none) := by
  simp only [signTransaction, transactionRequestFromEthersTransactionRequest,
    ethersRequestOfJsonRpc] at hp
  split at hp
  · exact Except.noConfusion hp
  · split at hp
    · exact Except.noConfusion hp
    · injection hp with h'
      subst h'
      exact ⟨rfl, rfl, rfl, rfl⟩

/-- For a caller whose origin is not the internal origin, the annotation
field of the wire request has no influence on `signTransaction`. -/
theorem signTransaction_annotation_ignored (db : ActiveNetworkTable)
    (req : JsonRpcTransactionRequest) (origin : String) (x : Option String)
    (h : origin ≠ TALLY_INTERNAL_ORIGIN) :
    signTransaction db { req with annotation := x } origin =
      signTransaction db req origin := by
  simp only [signTransaction, transactionRequestFromEthersTransactionRequest,
    ethersRequestOfJsonRpc, if_neg h]

/-- Routing an eth_sendTransaction succeeds with an opened signature request
exactly when `signTransaction` on the nonce-stripped request does. -/
theorem routeSend_ok_iff (s : WalletState) (req : JsonRpcTransactionRequest)
    (origin : String) (p : SignTransactionPayload) :
    (routeSafeRPCRequest s (RPCCall.eth_sendTransaction req) origin).2 =
      Except.ok (RouteValue.transactionSignatureRequest p) ↔
    signTransaction s.db { req with nonce := none } origin = Except.ok p := by
  simp only [routeSafeRPCRequest]
  cases hsig : signTransaction s.db { req with nonce := none } origin with
  | error e => simp [Except.map]
  | ok q => simp [Except.map]

/-- Routing an eth_signTransaction succeeds with an opened signature request
exactly when `signTransaction` on the unmodified wire request does. -/
theorem routeSignTx_ok_iff (s : WalletState) (req : JsonRpcTransactionRequest)
    (origin : String) (p : SignTransactionPayload) :
    (routeSafeRPCRequest s (RPCCall.eth_signTransaction req) origin).2 =
      Except.ok (RouteValue.transactionSignatureRequest p) ↔
    signTransaction s.db req origin = Except.ok p := by
  simp only [routeSafeRPCRequest]
  cases hsig : signTransaction s.db req origin with
  | error e => simp [Except.map]
  | ok q => simp [Except.map]

/-- C1: for both signing methods, the annotation is attached to the emitted
canonical payload only when the caller's origin is exactly the internal
origin; for any other origin the annotation field has no influence on the
routing outcome and the emitted payload carries no annotation. -/
theorem annotation_trusted_origin_only (s : WalletState)
    (req : JsonRpcTransactionRequest) (origin : String) (x : Option String) :
    (origin ≠ TALLY_INTERNAL_ORIGIN →
      (routeSafeRPCRequest s
          (RPCCall.eth_sendTransaction { req with annotation := x }) origin =
        routeSafeRPCRequest s (RPCCall.eth_sendTransaction req) origin) ∧
      (routeSafeRPCRequest s
          (RPCCall.eth_signTransaction { req with annotation := x }) origin =
        routeSafeRPCRequest s (RPCCall.eth_signTransaction req) origin) ∧
      (∀ p,
        (routeSafeRPCRequest s (RPCCall.eth_sendTransaction req) origin).2 =
          Except.ok (RouteValue.transactionSignatureRequest p) →
        SignTransactionPayload.annotation p = none) ∧
      (∀ p,
        (routeSafeRPCRequest s (RPCCall.eth_signTransaction req) origin).2 =
          Except.ok (RouteValue.transactionSignatureRequest p) →
        SignTransactionPayload.annotation p = none)) ∧
    (origin = TALLY_INTERNAL_ORIGIN →
      ∀ p,
        (routeSafeRPCRequest s (RPCCall.eth_signTransaction req) origin).2 =
          Except.ok (RouteValue.transactionSignatureRequest p) →
        SignTransactionPayload.annotation p =
          Option.map decodeJSON ( JsonRpcTransactionRequest.annotation req)) := by
  constructor
  · intro h
    refine ⟨?_, ?_, ?_, ?_⟩
    · simp only [routeSafeRPCRequest]
      exact congrArg
        (fun r => (s, Except.map RouteValue.transactionSignatureRequest r))
        (signTransaction_annotation_ignored s.db { req with nonce := none }
          origin x h)
    · simp only [routeSafeRPCRequest]
      exact congrArg
        (fun r => (s, Except.map RouteValue.transactionSignatureRequest r))
        (signTransaction_annotation_ignored s.db req origin x h)
    · intro p hp
      have hs := (signTransaction_ok_spec s.db { req with nonce := none }
        origin p ((routeSend_ok_iff s req origin p).mp hp)).2.2.2
      rw [if_neg h] at hs
      exact hs
    · intro p hp
      have hs := (signTransaction_ok_spec s.db req origin p
        ((routeSignTx_ok_iff s req origin p).mp hp)).2.2.2
      rw [if_neg h] at hs
      exact hs
  · intro h p hp
    have hs := (signTransaction_ok_spec s.db req origin p
      ((routeSignTx_ok_iff s req origin p).mp hp)).2.2.2
    rw [if_pos h] at hs
    exact hs

/-- Concrete wire request used by witness instantiations: it carries a
caller nonce, a `gas` field, an aliased `input` field and no explicit
`data`. -/
def exampleTxRequest : JsonRpcTransactionRequest :=
  { «from» := some "0xf00", «to» := some "0xbar", value := some "0x1",
    data := none, gas := some "0x5208", input := some "0xabc",
    nonce := some "0x7", annotation := some "spend" }

/-- The canonical payload the broker emits for `exampleTxRequest` from an
untrusted origin on the initial database. -/
def exampleCanonicalPayload : SignTransactionPayload :=
  { «from» := "0xf00", «to» := some "0xbar", value := some "0x1",
    data := some "0xabc", gasLimit := some "0x5208", nonce := none,
    network := ETHEREUM, annotation := none }

/-- Witness for C1: an untrusted caller's annotation changes nothing and is
not attached, while the internal origin's annotation is attached. -/
theorem annotation_trusted_origin_only_witness :
    (routeSafeRPCRequest exampleInternalState
        (RPCCall.eth_sendTransaction
          { exampleTxRequest with annotation := some "other" })
        "https://dapp.example" =
      routeSafeRPCRequest exampleInternalState
        (RPCCall.eth_sendTransaction exampleTxRequest) "https://dapp.example") ∧
    SignTransactionPayload.annotation exampleCanonicalPayload = none ∧
    SignTransactionPayload.annotation
        { exampleCanonicalPayload with annotation := some "spend" } =
      some "spend" :=
  ⟨((annotation_trusted_origin_only exampleInternalState exampleTxRequest
      "https://dapp.example" (some "other")).1 (by decide)).1,
    ((annotation_trusted_origin_only exampleInternalState exampleTxRequest
      "https://dapp.example" (some "other")).1 (by decide)).2.2.1
      exampleCanonicalPayload rfl,
    (annotation_trusted_origin_only exampleInternalState exampleTxRequest
      TALLY_INTERNAL_ORIGIN none).2 rfl
      { exampleCanonicalPayload with annotation := some "spend" } rfl⟩

/-- C3: for both eth_sendTransaction and eth_signTransaction, any
caller-supplied nonce is discarded during normalization, so every emitted
canonical transaction request has an absent nonce. -/
theorem canonical_request_nonce_absent (s : WalletState)
    (req : JsonRpcTransactionRequest) (origin : String) :
    (∀ p, (routeSafeRPCRequest s (RPCCall.eth_sendTransaction req) origin).2 =
        Except.ok (RouteValue.transactionSignatureRequest p) →
      SignTransactionPayload.nonce p = none) ∧
    (∀ p, (routeSafeRPCRequest s (RPCCall.eth_signTransaction req) origin).2 =
        Except.ok (RouteValue.transactionSignatureRequest p) →
      SignTransactionPayload.nonce p = none) := by
  constructor
  · intro p hp
    exact (signTransaction_ok_spec s.db { req with nonce := none } origin p
      ((routeSend_ok_iff s req origin p).mp hp)).1
  · intro p hp
    exact (signTransaction_ok_spec s.db req origin p
      ((routeSignTx_ok_iff s req origin p).mp hp)).1

/-- Witness for C3: the concrete request's explicit nonce is gone from the
canonical payload on both signing routes. -/
theorem canonical_request_nonce_absent_witness :
    SignTransactionPayload.nonce exampleCanonicalPayload = none ∧
    JsonRpcTransactionRequest.nonce exampleTxRequest = some "0x7" :=
  ⟨(canonical_request_nonce_absent exampleInternalState exampleTxRequest
      "https://dapp.example").1 exampleCanonicalPayload rfl, rfl⟩

/-- C7: normalization prefers an explicit `data` field over the aliased
`input` field (which is used only when `data` is absent) and maps the wire
`gas` field to the canonical gas limit. -/
theorem data_preferred_over_input (s : WalletState)
    (req : JsonRpcTransactionRequest) (origin : String) :
    (∀ d p, JsonRpcTransactionRequest.data req = some d →
      (routeSafeRPCRequest s (RPCCall.eth_sendTransaction req) origin).2 =
        Except.ok (RouteValue.transactionSignatureRequest p) →
      SignTransactionPayload.data p = some d) ∧
    (∀ p, JsonRpcTransactionRequest.data req = none →
      (routeSafeRPCRequest s (RPCCall.eth_sendTransaction req) origin).2 =
        Except.ok (RouteValue.transactionSignatureRequest p) →
      SignTransactionPayload.data p = JsonRpcTransactionRequest.input req) ∧
    (∀ p, (routeSafeRPCRequest s (RPCCall.eth_sendTransaction req) origin).2 =
        Except.ok (RouteValue.transactionSignatureRequest p) →
      SignTransactionPayload.gasLimit p = JsonRpcTransactionRequest.gas req) := by
  refine ⟨?_, ?_, ?_⟩
  · intro d p hd hp
    have hs := (signTransaction_ok_spec s.db { req with nonce := none } origin
      p ((routeSend_ok_iff s req origin p).mp hp)).2.2.1
    simpa [hd] using hs
  · intro p hd hp
    have hs := (signTransaction_ok_spec s.db { req with nonce := none } origin
      p ((routeSend_ok_iff s req origin p).mp hp)).2.2.1
    simpa [hd] using hs
  · intro p hp
    exact (signTransaction_ok_spec s.db { req with nonce := none } origin p
      ((routeSend_ok_iff s req origin p).mp hp)).2.1

/-- Witness for C7 at the spec's concrete scenario (gas 0x5208, no data,
input 0xabc) plus a request carrying both fields with different values. -/
theorem data_preferred_over_input_witness :
    SignTransactionPayload.data exampleCanonicalPayload = some "0xabc" ∧
    SignTransactionPayload.gasLimit exampleCanonicalPayload = some "0x5208" ∧
    SignTransactionPayload.data
        { exampleCanonicalPayload with data := some "0xdef" } = some "0xdef" :=
  ⟨(data_preferred_over_input exampleInternalState exampleTxRequest
      "https://dapp.example").2.1 exampleCanonicalPayload rfl rfl,
    (data_preferred_over_input exampleInternalState exampleTxRequest
      "https://dapp.example").2.2 exampleCanonicalPayload rfl,
    (data_preferred_over_input exampleInternalState
      { exampleTxRequest with data := some "0xdef" }
      "https://dapp.example").1 "0xdef"
      { exampleCanonicalPayload with data := some "0xdef" } rfl rfl⟩

/-- Behavior of the shared chain-switch case body: persist-and-null on a
resolvable chain id, chain-disconnected on an unresolvable one, supported
networks never modified. -/
theorem routeSwitch_spec (s : WalletState) (origin : String) (chainId : Nat) :
    (∀ n, getActiveNetworkByChainId s chainId = some n →
      routeSwitchEthereumChain s origin chainId =
        ({ s with db := setActiveChainIdForOrigin s.db origin n },
          Except.ok RouteValue.null)) ∧
    (getActiveNetworkByChainId s chainId = none →
      routeSwitchEthereumChain s origin chainId =
        (s, Except.error RouteError.chainDisconnected)) ∧
    (routeSwitchEthereumChain s origin chainId).1.chainNetworks =
      s.chainNetworks ∧
    (routeSwitchEthereumChain s origin chainId).1.activatable =
      s.activatable := by
  unfold routeSwitchEthereumChain
  cases h : getActiveNetworkByChainId s chainId with
  | none =>
    refine ⟨fun n hn => ?_, fun _ => rfl, rfl, rfl⟩
    exact Option.noConfusion hn
  | some m =>
    refine ⟨fun n hn => ?_, fun hn => ?_, rfl, rfl⟩
    · cases Option.some.inj hn
      rfl
    · exact Option.noConfusion hn

/-- C5: a wallet_switchEthereumChain or wallet_addEthereumChain call persists
the origin's selection and returns null exactly when the requested chain id
resolves among the supported networks (including an activation attempt); it
fails with chain-disconnected otherwise, and it never adds a new chain. -/
theorem chain_switch_resolution (s : WalletState) (origin : String)
    (chainId : Nat) (call : RPCCall)
    (hc : call = RPCCall.wallet_switchEthereumChain chainId ∨
      call = RPCCall.wallet_addEthereumChain chainId) :
    (∀ n, getActiveNetworkByChainId s chainId = some n →
      routeSafeRPCRequest s call origin =
        ({ s with db := setActiveChainIdForOrigin s.db origin n },
          Except.ok RouteValue.null)) ∧
    (getActiveNetworkByChainId s chainId = none →
      routeSafeRPCRequest s call origin =
        (s, Except.error RouteError.chainDisconnected)) ∧
    (routeSafeRPCRequest s call origin).1.chainNetworks = s.chainNetworks ∧
    (routeSafeRPCRequest s call origin).1.activatable = s.activatable := by
  rcases hc with h | h <;> subst h <;>
    simpa only [routeSafeRPCRequest] using routeSwitch_spec s origin chainId

/-- Witness for C5: switching to chain id 1 succeeds and persists, switching
to chain id 999 fails with chain-disconnected. -/
theorem chain_switch_resolution_witness :
    routeSafeRPCRequest exampleInternalState
        (RPCCall.wallet_switchEthereumChain 1) "https://dapp.example" =
      ({ exampleInternalState with
          db := setActiveChainIdForOrigin exampleInternalState.db
            "https://dapp.example" ETHEREUM },
        Except.ok RouteValue.null) ∧
    routeSafeRPCRequest exampleInternalState
        (RPCCall.wallet_switchEthereumChain 999) "https://dapp.example" =
      (exampleInternalState, Except.error RouteError.chainDisconnected) :=
  ⟨(chain_switch_resolution exampleInternalState "https://dapp.example" 1
      (RPCCall.wallet_switchEthereumChain 1) (Or.inl rfl)).1 ETHEREUM rfl,
    (chain_switch_resolution exampleInternalState "https://dapp.example" 999
      (RPCCall.wallet_switchEthereumChain 999) (Or.inl rfl)).2.1 rfl⟩

/-- C6: an origin with no stored selection resolves to the internal origin's
stored selection when one is set; on the initial database that selection is
the hard-coded default network, so eth_chainId returns its hex chain id and
does not fail. -/
theorem origin_network_default_fallback (s : WalletState) (origin : String)
    (h : getActiveNetworkForOrigin s.db origin = none) :
    getActiveOrDefaultNetwork s.db origin = getInternalActiveChain s.db ∧
    (∀ n, getInternalActiveChain s.db = some n →
      getActiveOrDefaultNetwork s.db origin = some n) ∧
    (s.db = initialActiveNetworkTable →
      getActiveOrDefaultNetwork s.db origin = some ETHEREUM ∧
      routeSafeRPCRequest s RPCCall.eth_chainId origin =
        (s, Except.ok (RouteValue.str (toHexChainID ETHEREUM.chainID)))) := by
  have h1 : getActiveOrDefaultNetwork s.db origin = getInternalActiveChain s.db := by
    unfold getActiveOrDefaultNetwork
    rw [h]
  refine ⟨h1, fun n hn => h1.trans hn, fun hdb => ?_⟩
  have h2 : getInternalActiveChain s.db = some ETHEREUM := by
    rw [hdb]
    rfl
  refine ⟨h1.trans h2, ?_⟩
  simp only [routeSafeRPCRequest]
  rw [h1.trans h2]

/-- Witness for C6: a fresh dapp origin on the initial database resolves to
the default network and eth_chainId returns its hex chain id. -/
theorem origin_network_default_fallback_witness :
    getActiveOrDefaultNetwork exampleInternalState.db "https://dapp.example" =
      some ETHEREUM ∧
    routeSafeRPCRequest exampleInternalState RPCCall.eth_chainId
        "https://dapp.example" =
      (exampleInternalState,
        Except.ok (RouteValue.str (toHexChainID ETHEREUM.chainID))) :=
  (origin_network_default_fallback exampleInternalState "https://dapp.example"
    rfl).2.2 rfl

/-- C8 (amended): a chain switch for o1 writes only o1's row, so for any
o1 ≠ o2 the stored entry of o2 is unchanged; and o2's resolved active
network is also unchanged provided o1 is not the internal origin, whose row
doubles as the fallback default for origins with no stored selection. -/
theorem chain_switch_frame (s : WalletState) (o1 o2 : String) (chainId : Nat)
    (h : o1 ≠ o2) :
    getActiveNetworkForOrigin
        (routeSafeRPCRequest s (RPCCall.wallet_switchEthereumChain chainId)
          o1).1.db o2 =
      getActiveNetworkForOrigin s.db o2 ∧
    (o1 ≠ TALLY_INTERNAL_ORIGIN →
      getActiveOrDefaultNetwork
          (routeSafeRPCRequest s (RPCCall.wallet_switchEthereumChain chainId)
            o1).1.db o2 =
        getActiveOrDefaultNetwork s.db o2) := by
  simp only [routeSafeRPCRequest]
  unfold routeSwitchEthereumChain
  cases hn : getActiveNetworkByChainId s chainId with
  | none => exact ⟨rfl, fun _ => rfl⟩
  | some n =>
    constructor
    · exact getActiveNetworkForOrigin_set_ne s.db o1 o2 n h
    · intro hint
      unfold getActiveOrDefaultNetwork getInternalActiveChain
      rw [getActiveNetworkForOrigin_set_ne s.db o1 o2 n h,
        getActiveNetworkForOrigin_set_ne s.db o1 TALLY_INTERNAL_ORIGIN n hint]

/-- A second supported network used by the C8 scenario. -/
def polygonNetwork : EVMNetwork := { name := "Polygon", chainID := 137 }

/-- Broker state for the C8 scenario: initial database, two active chains. -/
def c8State : WalletState :=
  { db := initialActiveNetworkTable, selectedAccount := none,
    chainNetworks := [ETHEREUM, polygonNetwork], activatable := [] }

/-- C8 counterexample: a successful chain switch for the internal origin (an
origin different from the observed one) changes the observed origin's
resolved active network, because the internal row is the fallback default
for origins with no stored selection. -/
theorem chain_switch_frame_counterexample :
    TALLY_INTERNAL_ORIGIN ≠ "https://dapp.example" ∧
    (routeSafeRPCRequest c8State (RPCCall.wallet_switchEthereumChain 137)
        TALLY_INTERNAL_ORIGIN).2 = Except.ok RouteValue.null ∧
    getActiveOrDefaultNetwork c8State.db "https://dapp.example" =
      some ETHEREUM ∧
    getActiveOrDefaultNetwork
        (routeSafeRPCRequest c8State (RPCCall.wallet_switchEthereumChain 137)
          TALLY_INTERNAL_ORIGIN).1.db "https://dapp.example" =
      some polygonNetwork ∧
    polygonNetwork ≠ ETHEREUM := by
  refine ⟨by decide, rfl, rfl, rfl, by decide⟩

/-- Witness for C8 (amended) at two distinct non-internal origins. -/
theorem chain_switch_frame_witness :
    getActiveNetworkForOrigin
        (routeSafeRPCRequest c8State (RPCCall.wallet_switchEthereumChain 137)
          "https://dapp1.example").1.db "https://dapp2.example" =
      getActiveNetworkForOrigin c8State.db "https://dapp2.example" ∧
    getActiveOrDefaultNetwork
        (routeSafeRPCRequest c8State (RPCCall.wallet_switchEthereumChain 137)
          "https://dapp1.example").1.db "https://dapp2.example" =
      getActiveOrDefaultNetwork c8State.db "https://dapp2.example" :=
  ⟨(chain_switch_frame c8State "https://dapp1.example" "https://dapp2.example"
      137 (by decide)).1,
    (chain_switch_frame c8State "https://dapp1.example" "https://dapp2.example"
      137 (by decide)).2 (by decide)⟩

end Wallet
